import Mathlib

/-!
# Verification of `src/js/scrubImageSequence.js`

A shallow embedding of the scroll-linked canvas image-sequence script.
The script discovers `[scrub-wrapper]` sections, preloads numbered frame
images, draws frames into a canvas (cover-fit), binds scroll/autoplay
tweens per `[frames-play]` block, and keeps global image-loading counters.

Numbers that the script manipulates (canvas sizes, image sizes, scroll
offsets, tween values) are embedded as rationals `ℚ`; frame indices into
the image array are embedded as `Int` (JS array subscripts with negative
or too-large values yield `undefined`).  Effects on the canvas, on the
network and on the global counters are embedded as explicit traces.
-/

/-! ## Frame URL construction (source lines 49–50)

`currentFrame = (index) => `
``  `${prefix}${device}/${(index + 1).toString().padStart(3, "0")}${suffix}` ``
-/

/-- JS `String.prototype.padStart(targetLength, padChar)` restricted to a
single pad character: returns the string unchanged when it is already at
least `targetLength` long, otherwise left-pads with `padChar`. -/
def padStart (s : String) (targetLength : Nat) (padChar : Char) : String :=
  if targetLength ≤ s.length then s
  else String.mk (List.replicate (targetLength - s.length) padChar) ++ s

/-- Source lines 49–50: the URL requested for the 0-based frame `index` of a
section with URL parts `pre`/`suf` and device variant `device`. -/
def currentFrame (pre device suf : String) (index : Nat) : String :=
  pre ++ device ++ "/" ++ padStart (Nat.repr (index + 1)) 3 '0' ++ suf

/-- Modelled from the spec: `zero-pad(n, w)` — the decimal digits of `n`
left-padded with `'0'` to at least `w` characters.  This is the spec-side
formula that `currentFrame` is compared against. -/
def zeroPad (n w : Nat) : String :=
  String.mk (List.replicate (w - (Nat.repr n).length) '0') ++ Nat.repr n

/-! ## Images and the canvas renderer (source lines 151–167) -/

/-- Load state of one `Image` element in the section's `images` array:
`complete w h` is a successfully loaded image with natural size `w × h`,
`broken` failed to load, `loading` has not settled yet. -/
inductive ImgState
  | complete (w h : ℚ)
  | broken
  | loading
deriving DecidableEq

/-- JS `img.width`: the natural width for a loaded image, `0` otherwise. -/
def imgWidth : ImgState → ℚ
  | .complete w _ => w
  | _ => 0

/-- JS `img.height`: the natural height for a loaded image, `0` otherwise. -/
def imgHeight : ImgState → ℚ
  | .complete _ h => h
  | _ => 0

/-- Whether `context.drawImage` actually paints this image.  Following the
spec's characterisation of the draw primitive ("skip drawing if the image is
not in a drawable state"), a draw call is modelled as painting exactly when
the image has loaded with a positive natural size, and as a silent no-op
otherwise. -/
def drawable : ImgState → Bool
  | .complete w h => decide (0 < w) && decide (0 < h)
  | _ => false

/-- JS array subscripting `images[frame]`: `none` (i.e. `undefined`) for a
negative or out-of-range index. -/
def jsIndex (xs : List ImgState) (i : Int) : Option ImgState :=
  if i < 0 then none else xs[i.toNat]?

/-- One observable canvas operation performed by `render`. -/
inductive CanvasOp
  | clearRect (x y w h : ℚ)
  | drawImage (x y w h : ℚ)
deriving DecidableEq

/-- A JS exception escaping `render`.  `typeErrUndefined` is the TypeError
raised by reading `.width` of `undefined`. -/
inductive JsError
  | typeErrUndefined
deriving DecidableEq

/-- Result of one `render` call: the canvas operations performed, in order,
up to the point where an exception (if any) was thrown. -/
structure RenderResult where
  ops : List CanvasOp
  err : Option JsError
deriving DecidableEq

/-- Source lines 152–167.  `render` reads `images[sequence.frame]`, clears
the whole canvas, and then computes the cover-fit scale
`max (W / img.width) (H / img.height)` and draws the image centred.  When
the index is out of range the lookup yields `undefined` and the subsequent
`img.width` read throws — but only after `clearRect` has already run, which
is why the error case still records the clear operation. -/
def render (images : List ImgState) (frame : Int) (W H : ℚ) : RenderResult :=
  match jsIndex images frame with
  | none => ⟨[CanvasOp.clearRect 0 0 W H], some JsError.typeErrUndefined⟩
  | some img =>
      let s := max (W / imgWidth img) (H / imgHeight img)
      ⟨CanvasOp.clearRect 0 0 W H ::
        (if drawable img then
          [CanvasOp.drawImage (W / 2 - imgWidth img * s / 2)
            (H / 2 - imgHeight img * s / 2) (imgWidth img * s) (imgHeight img * s)]
         else []),
       none⟩

/-- The requested frame has no paintable image: the index is out of range,
or the image there is not in a drawable state. -/
def frameNotDrawable (images : List ImgState) (frame : Int) : Bool :=
  match jsIndex images frame with
  | none => true
  | some img => !drawable img

/-! ### Render theorems (C2, C7, C10) -/

/-- C2 counterexample: the claim says `render` must not throw when "the
index is outside the image array", but `images[frame]` is then `undefined`
and the `img.width` read on source line 158 throws a TypeError.  Here the
section has one (failed) image and frame index 1 is requested. -/
theorem render_out_of_bounds_throws :
    (render [ImgState.broken] 1 800 600).err = some JsError.typeErrUndefined := by
  decide

/-- C2 as amended: `render` does not throw whenever the requested frame
index refers to an existing element of the image array, whatever that
image's load state — drawing is skipped when the image is not drawable. -/
theorem render_no_throw_in_bounds (images : List ImgState) (frame : Int) (W H : ℚ)
    (h0 : 0 ≤ frame) (hlt : frame.toNat < images.length) :
    (render images frame W H).err = none := by
  have hidx : jsIndex images frame = some images[frame.toNat] := by
    unfold jsIndex
    rw [if_neg (not_lt.mpr h0), List.getElem?_eq_getElem hlt]
  unfold render
  rw [hidx]

/-- Witness for C2's amended theorem: a section whose only image failed to
load, rendered at the in-bounds frame index 0, with no exception. -/
theorem render_no_throw_in_bounds_witness :
    ((0 : Int) ≤ 0 ∧ (0 : Int).toNat < [ImgState.broken].length) ∧
    (render [ImgState.broken] 0 800 600).err = none :=
  ⟨by decide, render_no_throw_in_bounds [ImgState.broken] 0 800 600 (by decide) (by decide)⟩

/-- C7: with a successfully loaded image of positive size `w × h` at the
requested index, `render` clears the canvas and then draws the image once at
scale `s = max (W/w) (H/h)`, size `(w*s, h*s)`, top-left offset
`(W/2 - w*s/2, H/2 - h*s/2)`. -/
theorem render_cover_fit (images : List ImgState) (frame : Int) (W H w h : ℚ)
    (hw : 0 < w) (hh : 0 < h) (hidx : jsIndex images frame = some (ImgState.complete w h)) :
    render images frame W H =
      ⟨[CanvasOp.clearRect 0 0 W H,
        CanvasOp.drawImage (W / 2 - w * max (W / w) (H / h) / 2)
          (H / 2 - h * max (W / w) (H / h) / 2)
          (w * max (W / w) (H / h)) (h * max (W / w) (H / h))], none⟩ := by
  unfold render
  rw [hidx]
  have hd : drawable (ImgState.complete w h) = true := by
    simp [drawable, hw, hh]
  simp [hd, imgWidth, imgHeight]

/-- Witness for C7 at the spec's example: canvas 800×600, image 400×300,
scale factor 2, drawn size 800×600, offset `(0,0)`. -/
theorem render_cover_fit_witness :
    ((0 : ℚ) < 400 ∧ (0 : ℚ) < 300 ∧
      jsIndex [ImgState.complete 400 300] 0 = some (ImgState.complete 400 300)) ∧
    render [ImgState.complete 400 300] 0 800 600 =
      ⟨[CanvasOp.clearRect 0 0 800 600, CanvasOp.drawImage 0 0 800 600], none⟩ :=
  ⟨⟨by norm_num, by norm_num, by decide⟩, by
    have h := render_cover_fit [ImgState.complete 400 300] 0 800 600 400 300
      (by norm_num) (by norm_num) (by decide)
    rw [h]
    norm_num⟩

/-- C10: every `render` call performs `clearRect` over the whole canvas
first, before any draw is attempted (even when the frame lookup later
throws); and when the requested frame has no drawable image the trace is
exactly the clear — the canvas is left blank, not showing the prior
frame. -/
theorem render_clears_first (images : List ImgState) (frame : Int) (W H : ℚ) :
    (render images frame W H).ops.head? = some (CanvasOp.clearRect 0 0 W H) ∧
    (frameNotDrawable images frame = true →
      (render images frame W H).ops = [CanvasOp.clearRect 0 0 W H]) := by
  unfold render frameNotDrawable
  cases hidx : jsIndex images frame with
  | none => simp
  | some img => cases hd : drawable img <;> simp [hd]

/-- Witness for C10: rendering the in-bounds but failed frame 0 leaves
exactly a cleared canvas. -/
theorem render_clears_first_witness :
    frameNotDrawable [ImgState.broken] 0 = true ∧
    (render [ImgState.broken] 0 800 600).ops = [CanvasOp.clearRect 0 0 800 600] :=
  ⟨by decide, (render_clears_first [ImgState.broken] 0 800 600).2 (by decide)⟩

/-! ## Per-section load counting (source lines 54–77)

Each of the `frameCount` images fires either `onload` or `onerror` exactly
once; both handlers run `imagesLoaded++` and call `initCanvasAnimations`
(the "ready" signal) exactly when `imagesLoaded === frameCount`. -/

/-- How one image load settles. -/
inductive LoadOutcome
  | success
  | failure
deriving DecidableEq

/-- One `onload`/`onerror` callback (source lines 57–74): the state is
`(imagesLoaded, readySignals)`; the counter is incremented and the ready
signal fires exactly when the new counter equals `frameCount`.  The
increment is identical for `success` and `failure`. -/
def loaderStep (frameCount : Nat) (s : Nat × Nat) (o : LoadOutcome) : Nat × Nat :=
  (s.1 + 1, if s.1 + 1 = frameCount then s.2 + 1 else s.2)

/-- Run a section's loader over one interleaving of load/error completions,
starting from `imagesLoaded = 0` and no ready signal. -/
def runLoader (frameCount : Nat) (os : List LoadOutcome) : Nat × Nat :=
  os.foldl (loaderStep frameCount) (0, 0)

lemma runLoader_foldl (os : List LoadOutcome) : ∀ (N l r : Nat),
    os.foldl (loaderStep N) (l, r) =
      (l + os.length, r + if l < N ∧ N ≤ l + os.length then 1 else 0) := by
  induction os with
  | nil =>
    intro N l r
    simp only [List.foldl_nil, List.length_nil]
    refine Prod.ext rfl ?_
    simp only
    split <;> omega
  | cons o os ih =>
    intro N l r
    rw [List.foldl_cons]
    show os.foldl (loaderStep N) (l + 1, if l + 1 = N then r + 1 else r) = _
    rw [ih]
    refine Prod.ext ?_ ?_ <;> simp only [List.length_cons]
    · omega
    · split_ifs <;> omega

/-! ## Playback blocks and their bindings (source lines 81–137) -/

/-- One `[frames-play]` block's data attributes: `data-start`, `data-end`,
the `data-autoplay-sequence` flag, and the optional `data-autoplay-delay`,
`data-start-pos`, `data-end-pos`. -/
structure BlockAttrs where
  startFrame : Int
  endFrame : Int
  autoplay : Bool
  autoplayDelay : Option ℚ
  startPos : Option String
  endPos : Option String
deriving DecidableEq

/-- The animation bound to one block.
`autoTween a b duration easeNone snapFrame delay rendersOnUpdate` is the
`gsap.to` tween of source lines 103–110 (frame animated from `a` to `b`);
`immediateRender f` is the else-branch of lines 112–114: the frame field is
set to `f` and `render` is invoked exactly once, with no tween;
`scrollTween a b startPos endPos scrub duration snapFrame easeNone
rendersOnUpdate` is the scroll-triggered timeline of lines 118–135. -/
inductive BlockBinding
  | autoTween (fromFrame toFrame : Int) (duration : ℚ) (easeNone snapFrame : Bool)
      (delay : ℚ) (rendersOnUpdate : Bool)
  | immediateRender (frame : Int)
  | scrollTween (fromFrame toFrame : Int) (startPos endPos : String) (scrub duration : ℚ)
      (snapFrame easeNone rendersOnUpdate : Bool)
deriving DecidableEq

/-- Source lines 86–136: bind one block, given the page scroll offset
`scrollY` at bind time.  `duration = (end - start) / 30`; the block's
sequence starts at `frame = 0`; an autoplay block tweens `0 → end-1` when
`scrollY ≤ 1` and otherwise immediately shows frame `end-1`; a
non-autoplay block gets a scroll-scrubbed `fromTo` tween
`start-1 → end-1`. -/
def bindBlock (scrollY : ℚ) (blk : BlockAttrs) : BlockBinding :=
  let duration : ℚ := ((blk.endFrame - blk.startFrame : Int) : ℚ) / 30
  if blk.autoplay then
    let delay : ℚ := blk.autoplayDelay.getD 0
    if scrollY ≤ 1 then
      BlockBinding.autoTween 0 (blk.endFrame - 1) duration true true delay true
    else
      BlockBinding.immediateRender (blk.endFrame - 1)
  else
    BlockBinding.scrollTween (blk.startFrame - 1) (blk.endFrame - 1)
      (blk.startPos.getD "top top") (blk.endPos.getD "bottom bottom") 1 1 true true true

/-- The value a `snap: "frame"` tween assigns at progress `p ∈ [0,1]` when
interpolating linearly from `a` to `b`: the linear interpolation snapped to
the nearest integer. -/
def snapTweenValue (a b : Int) (p : ℚ) : Int :=
  round ((a : ℚ) + p * ((b : ℚ) - (a : ℚ)))

/-- The frame field of a scroll-linked block at tween progress `p`:
`fromTo` interpolates `start-1 → end-1` (source lines 130–135). -/
def scrollFrameAt (blk : BlockAttrs) (p : ℚ) : Int :=
  snapTweenValue (blk.startFrame - 1) (blk.endFrame - 1) p

/-- The frame field of an autoplay block at tween progress `p`: `gsap.to`
interpolates from the current value `0` to `end-1` (source lines 103–110). -/
def autoplayFrameAt (blk : BlockAttrs) (p : ℚ) : Int :=
  snapTweenValue 0 (blk.endFrame - 1) p

lemma snapTweenValue_bounds (a b : Int) (p : ℚ) (hp0 : 0 ≤ p) (hp1 : p ≤ 1)
    (hab : a ≤ b) : a ≤ snapTweenValue a b p ∧ snapTweenValue a b p ≤ b := by
  have hba : (0 : ℚ) ≤ (b : ℚ) - (a : ℚ) := by
    have h2 : ((a : Int) : ℚ) ≤ ((b : Int) : ℚ) := by exact_mod_cast hab
    linarith
  have hx0 : (a : ℚ) ≤ (a : ℚ) + p * ((b : ℚ) - (a : ℚ)) := by
    nlinarith
  have hx1 : (a : ℚ) + p * ((b : ℚ) - (a : ℚ)) ≤ (b : ℚ) := by
    nlinarith
  unfold snapTweenValue
  constructor
  · have h1 : round ((a : ℚ)) ≤ round ((a : ℚ) + p * ((b : ℚ) - (a : ℚ))) := by
      rw [round_eq, round_eq]
      exact Int.floor_le_floor (by linarith)
    rwa [round_intCast] at h1
  · have h1 : round ((a : ℚ) + p * ((b : ℚ) - (a : ℚ))) ≤ round ((b : ℚ)) := by
      rw [round_eq, round_eq]
      exact Int.floor_le_floor (by linarith)
    rwa [round_intCast] at h1

/-! ### C3 -/

/-- C3 counterexample: the claim says the frame field is always in
`[0, N-1]`, but nothing clamps the tween range to the frame count.  For a
section with `N = 5` frames and a scroll-linked block with `data-start="0"`,
`data-end="5"`, the tween's initial value (progress 0) is `start - 1 = -1`,
outside `[0, 4]`. -/
theorem frame_range_counterexample :
    ¬ (0 ≤ scrollFrameAt ⟨0, 5, false, none, none, none⟩ 0 ∧
        scrollFrameAt ⟨0, 5, false, none, none, none⟩ 0 ≤ 5 - 1) := by
  have hv : scrollFrameAt ⟨0, 5, false, none, none, none⟩ 0 = -1 := by
    unfold scrollFrameAt snapTweenValue
    rw [round_eq]
    norm_num
  rw [hv]
  omega

/-- C3 as amended: provided the block attributes satisfy
`1 ≤ start ≤ end ≤ N`, every value the animation engine assigns to the
frame field — at any tween progress `p ∈ [0,1]`, including the initial
value, in both scroll-linked and autoplay mode — is an integer (the model
returns `Int` because of the `snap: "frame"` step) lying in `[0, N-1]`. -/
theorem frame_field_in_range (N : Int) (blk : BlockAttrs) (p : ℚ)
    (hp0 : 0 ≤ p) (hp1 : p ≤ 1) (h1 : 1 ≤ blk.startFrame)
    (h2 : blk.startFrame ≤ blk.endFrame) (h3 : blk.endFrame ≤ N) :
    (0 ≤ scrollFrameAt blk p ∧ scrollFrameAt blk p ≤ N - 1) ∧
    (0 ≤ autoplayFrameAt blk p ∧ autoplayFrameAt blk p ≤ N - 1) := by
  have hs := snapTweenValue_bounds (blk.startFrame - 1) (blk.endFrame - 1) p hp0 hp1
    (by omega)
  have ha := snapTweenValue_bounds 0 (blk.endFrame - 1) p hp0 hp1 (by omega)
  unfold scrollFrameAt autoplayFrameAt
  omega

/-- Witness for C3's amended theorem: `N = 5`, block `start = 1`,
`end = 5`, mid-tween progress `p = 1/2`. -/
theorem frame_field_in_range_witness :
    ((0 : ℚ) ≤ 1/2 ∧ (1/2 : ℚ) ≤ 1 ∧
      (1 : Int) ≤ 1 ∧ (1 : Int) ≤ 5 ∧ (5 : Int) ≤ 5) ∧
    (0 ≤ scrollFrameAt ⟨1, 5, false, none, none, none⟩ (1/2) ∧
      scrollFrameAt ⟨1, 5, false, none, none, none⟩ (1/2) ≤ 5 - 1) :=
  ⟨⟨by norm_num, by norm_num, by decide, by decide, by decide⟩,
   (frame_field_in_range 5 ⟨1, 5, false, none, none, none⟩ (1/2)
      (by norm_num) (by norm_num) (by decide) (by decide) (by decide)).1⟩

/-! ### C4 -/

/-- C4: for a section with `N ≥ 1` frames and any interleaving of the `N`
load/error completions, the ready signal (`initCanvasAnimations`) fires
exactly once; it has not fired after any proper prefix of the completions;
and the loader state is independent of which completions were successes and
which were failures. -/
theorem ready_signal_exactly_once (N : Nat) (os : List LoadOutcome)
    (hlen : os.length = N) (hN : 0 < N) :
    (runLoader N os).2 = 1 ∧
    (∀ k, k < N → (runLoader N (os.take k)).2 = 0) ∧
    (∀ os₂ : List LoadOutcome, os₂.length = N → runLoader N os₂ = runLoader N os) := by
  refine ⟨?_, ?_, ?_⟩
  · unfold runLoader
    rw [runLoader_foldl]
    simp only
    split_ifs <;> omega
  · intro k hk
    unfold runLoader
    rw [runLoader_foldl]
    simp only [List.length_take, hlen]
    split_ifs with h
    · omega
    · rfl
  · intro os₂ hlen₂
    unfold runLoader
    rw [runLoader_foldl, runLoader_foldl, hlen, hlen₂]

/-- Witness for C4 at the spec's example: `N = 5`, three successes and two
failures, ready fires once. -/
theorem ready_signal_exactly_once_witness :
    ([LoadOutcome.success, .success, .failure, .success, .failure].length = 5 ∧ 0 < 5) ∧
    (runLoader 5 [LoadOutcome.success, .success, .failure, .success, .failure]).2 = 1 :=
  ⟨by decide,
   (ready_signal_exactly_once 5 [LoadOutcome.success, .success, .failure, .success, .failure]
      (by decide) (by decide)).1⟩

/-! ### C5 -/

/-- C5: an autoplay block bound with page scroll offset `scrollY ≤ 1` gets
a tween of the frame field from `0` to `end-1` over `(end-start)/30`
seconds, linear easing, integer snapping, the configured delay (default 0),
rendering on every update; bound with `scrollY > 1` it instead immediately
sets the frame field to `end-1` and renders exactly once, with no tween. -/
theorem autoplay_binding (scrollY : ℚ) (blk : BlockAttrs) (ha : blk.autoplay = true) :
    (scrollY ≤ 1 →
      bindBlock scrollY blk =
        BlockBinding.autoTween 0 (blk.endFrame - 1)
          (((blk.endFrame - blk.startFrame : Int) : ℚ) / 30) true true
          (blk.autoplayDelay.getD 0) true) ∧
    (1 < scrollY → bindBlock scrollY blk = BlockBinding.immediateRender (blk.endFrame - 1)) := by
  constructor
  · intro hs
    simp [bindBlock, ha, hs]
  · intro hs
    simp [bindBlock, ha, not_le.mpr hs]

/-- Witness for C5: the spec's example block `start = 10`, `end = 40`
(duration `30/30 = 1`), bound once at `scrollY = 0` (tween) and once at
`scrollY = 50` (immediate final frame). -/
theorem autoplay_binding_witness :
    ((⟨10, 40, true, none, none, none⟩ : BlockAttrs).autoplay = true ∧ (0 : ℚ) ≤ 1 ∧
      (1 : ℚ) < 50) ∧
    bindBlock 0 ⟨10, 40, true, none, none, none⟩ =
      BlockBinding.autoTween 0 39 1 true true 0 true ∧
    bindBlock 50 ⟨10, 40, true, none, none, none⟩ = BlockBinding.immediateRender 39 :=
  ⟨⟨rfl, by norm_num, by norm_num⟩,
   by
    have h := (autoplay_binding 0 ⟨10, 40, true, none, none, none⟩ rfl).1 (by norm_num)
    rw [h]
    norm_num,
   by
    have h := (autoplay_binding 50 ⟨10, 40, true, none, none, none⟩ rfl).2 (by norm_num)
    rw [h]
    decide⟩

/-! ## Global progress counters (source lines 5–7, 21–22, 28–38)

`totalImagesCount` and `globalImagesRemaining` are page-wide mutable
variables.  `initSections` adds each accepted section's frame count to
both; every load/error completion calls `updateGlobalImageCount`, which
decrements the remaining counter and, exactly when it equals `0`,
schedules `lenis.resize()` with a 500 ms `setTimeout`. -/

/-- An event affecting the global counters: a section being accepted by
`initSections` (its `frames` added to both counters before any of its
images can settle), or one image load/error completion anywhere on the
page. -/
inductive PageEvent
  | initSection (frames : Nat)
  | settle
deriving DecidableEq

/-- The page-wide state: the two counters, plus the list of `lenis.resize`
notifications scheduled so far, each recorded with its `setTimeout` delay
in milliseconds.  `remaining` is an `Int` because the source never guards
it against going negative. -/
structure GState where
  remaining : Int
  total : Int
  notifications : List Nat
deriving DecidableEq

/-- One step of the global counters (source lines 21–22 and 28–38). -/
def gstep : GState → PageEvent → GState
  | s, .initSection n => ⟨s.remaining + n, s.total + n, s.notifications⟩
  | s, .settle =>
      ⟨s.remaining - 1, s.total,
       if s.remaining - 1 = 0 then s.notifications ++ [500] else s.notifications⟩

/-- Run a whole page execution from the initial state (both counters `0`,
nothing scheduled). -/
def runPage (es : List PageEvent) : GState :=
  es.foldl gstep ⟨0, 0, []⟩

lemma gstep_settle_run : ∀ (k : Nat) (s : GState),
    ((List.replicate k PageEvent.settle).foldl gstep s).notifications =
      if 1 ≤ s.remaining ∧ s.remaining ≤ (k : Int) then s.notifications ++ [500]
      else s.notifications := by
  intro k
  induction k with
  | zero =>
    intro s
    simp only [List.replicate, List.foldl_nil, Nat.cast_zero]
    split_ifs with h
    · omega
    · rfl
  | succ n ih =>
    intro s
    rw [List.replicate_succ, List.foldl_cons, ih]
    simp only [gstep]
    split_ifs with h1 h2 h2 <;> push_cast at h1 ⊢ <;> first | rfl | omega

lemma gstep_init_run : ∀ (ns : List Nat) (s : GState),
    ((ns.map PageEvent.initSection).foldl gstep s) =
      ⟨s.remaining + ns.sum, s.total + ns.sum, s.notifications⟩ := by
  intro ns
  induction ns with
  | nil =>
    intro s
    simp only [List.map_nil, List.foldl_nil, List.sum_nil]
    cases s
    simp
  | cons n ns ih =>
    intro s
    rw [List.map_cons, List.foldl_cons, ih]
    simp only [gstep, List.sum_cons]
    refine congrArg₂ (fun a b => GState.mk a b s.notifications) ?_ ?_ <;> push_cast <;> ring

/-! ### C6 -/

/-- C6 counterexample: an execution in which section initialization runs
twice (the viewport crossed the 768 px boundary, so the second
`mm.add` handler re-ran `initSections`).  One 1-frame section is
initialized, its image settles (remaining hits 0, a resize is scheduled),
then the section is re-initialized and its duplicate image settles: the
remaining counter reaches 0 a second time and `lenis.resize` is scheduled a
second time — not "exactly once and irreversibly". -/
theorem global_counter_counterexample :
    (runPage [PageEvent.initSection 1, PageEvent.settle,
              PageEvent.initSection 1, PageEvent.settle]).notifications = [500, 500] := by
  decide

/-- C6 as amended: in an execution whose initialization phase runs exactly
once — all sections are discovered (synchronously, before any image can
settle) and then their `T = Σ frames > 0` images all settle — the remaining
counter reaches 0 exactly at the last completion and the one-time resize
notification is scheduled exactly once, with the 500 ms delay; after any
proper prefix of the completions nothing has been scheduled. -/
theorem global_counter_single_init (ns : List Nat) (hT : 0 < ns.sum) :
    (runPage (ns.map PageEvent.initSection ++
        List.replicate ns.sum PageEvent.settle)).notifications = [500] ∧
    (∀ k, k < ns.sum →
      (runPage (ns.map PageEvent.initSection ++
          List.replicate k PageEvent.settle)).notifications = []) := by
  constructor
  · unfold runPage
    rw [List.foldl_append, gstep_init_run, gstep_settle_run]
    simp only
    rw [if_pos (by omega)]
    rfl
  · intro k hk
    unfold runPage
    rw [List.foldl_append, gstep_init_run, gstep_settle_run]
    simp only
    rw [if_neg (by omega)]

/-- Witness for C6's amended theorem at the spec's example: two sections of
6 and 4 frames, all 10 images settle, one resize scheduled 500 ms later. -/
theorem global_counter_single_init_witness :
    (0 < [6, 4].sum) ∧
    (runPage ([6, 4].map PageEvent.initSection ++
        List.replicate ([6, 4].sum) PageEvent.settle)).notifications = [500] :=
  ⟨by decide, (global_counter_single_init [6, 4] (by decide)).1⟩

/-! ## Section discovery and initialization (source lines 1–2, 10–25, 170–175) -/

/-- One `[scrub-wrapper]` element as `initSections` sees it: the optional
`data-prefix` / `data-suffix` strings (`none` = attribute absent, giving
`undefined`), the parsed `Number(data-framecount)` (`none` = attribute
absent or non-numeric, both of which give the falsy `NaN`), and whether a
descendant `<canvas>` exists. -/
structure SectionEl where
  pre : Option String
  suf : Option String
  framecount : Option Nat
  hasCanvas : Bool
deriving DecidableEq

/-- JS truthiness test used on `section.dataset.prefix` /
`section.dataset.suffix`: `undefined` and `""` are falsy. -/
def jsFalsyStr : Option String → Bool
  | none => true
  | some s => s == ""

/-- JS truthiness test used on `Number(section.dataset.framecount)`:
`NaN` (absent / unparsable, here `none`) and `0` are falsy. -/
def jsFalsyCount : Option Nat → Bool
  | none => true
  | some n => n == 0

/-- Source line 17: the guard
`if (!canvas || !prefix || !suffix || !frames) return;` — a section is
processed only when it passes all four checks. -/
def sectionAccepted (s : SectionEl) : Bool :=
  s.hasCanvas && !jsFalsyStr s.pre && !jsFalsyStr s.suf && !jsFalsyCount s.framecount

/-- An observable effect of initializing one section.  The effect language
deliberately includes `reportError`, which the source never emits, so that
"no error is reported" is expressible. -/
inductive InitEffect
  | bumpCounters (n : Nat)
  | request (url : String)
  | reportError (msg : String)
deriving DecidableEq

/-- Source lines 12–24 for one section: a skipped section contributes
nothing; an accepted one first adds its frame count to the two global
counters (lines 21–22) and then `initCanvas` requests the `frames` URLs
for indices `0 .. frames-1` (lines 54–76). -/
def initSectionEffects (device : String) (s : SectionEl) : List InitEffect :=
  if sectionAccepted s then
    InitEffect.bumpCounters (s.framecount.getD 0) ::
      (List.range (s.framecount.getD 0)).map
        (fun i => InitEffect.request (currentFrame (s.pre.getD "") device (s.suf.getD "") i))
  else []

/-- The page environment captured when the script is evaluated: source
line 2, `const viewportWidth = document.documentElement.clientWidth`. -/
structure PageEnv where
  loadClientWidth : ℚ
deriving DecidableEq

/-- Source line 19: `viewportWidth >= 768 ? "desktop" : "mobile"`, where
`viewportWidth` is the `const` captured at script load — not the current
viewport width. -/
def deviceOf (env : PageEnv) : String :=
  if 768 ≤ env.loadClientWidth then "desktop" else "mobile"

/-- One run of `initSections()` (source lines 10–25): every section
contributes its effects, all computed with the load-time device variant. -/
def initSectionsRun (env : PageEnv) (sections : List SectionEl) : List InitEffect :=
  sections.flatMap (initSectionEffects (deviceOf env))

/-- Source lines 170–175: both `mm.add` breakpoint registrations call the
zero-argument `initSections()`.  Each element of `triggerWidths` is the
viewport width current when one of the two media-query handlers fires;
the handler closure takes no parameters and reads only the load-time
`const`, which is why the run it performs cannot depend on that width. -/
def pageInitRuns (env : PageEnv) (sections : List SectionEl) (triggerWidths : List ℚ) :
    List (List InitEffect) :=
  triggerWidths.map (fun _ => initSectionsRun env sections)

/-! ### C8 -/

/-- C8: a section missing `data-prefix`, `data-suffix` or
`data-framecount`, or containing no `<canvas>`, is skipped silently:
whatever the device variant, it contributes no image requests, no global
counter increments, and no error report. -/
theorem missing_config_silently_skipped (device : String) (s : SectionEl)
    (h : s.pre = none ∨ s.suf = none ∨ s.framecount = none ∨ s.hasCanvas = false) :
    initSectionEffects device s = [] := by
  have hacc : sectionAccepted s = false := by
    rcases h with h | h | h | h <;>
      simp [sectionAccepted, jsFalsyStr, jsFalsyCount, h]
  simp [initSectionEffects, hacc]

/-- Witness for C8: a section with a canvas, a suffix and a frame count but
no `data-prefix` contributes no effects at all. -/
theorem missing_config_silently_skipped_witness :
    ((⟨none, some ".jpg", some 5, true⟩ : SectionEl).pre = none ∨
      (⟨none, some ".jpg", some 5, true⟩ : SectionEl).suf = none ∨
      (⟨none, some ".jpg", some 5, true⟩ : SectionEl).framecount = none ∨
      (⟨none, some ".jpg", some 5, true⟩ : SectionEl).hasCanvas = false) ∧
    initSectionEffects "desktop" ⟨none, some ".jpg", some 5, true⟩ = [] :=
  ⟨Or.inl rfl, missing_config_silently_skipped "desktop" _ (Or.inl rfl)⟩

/-! ### C9 -/

/-- C9: every run of `initSections` — however many times the two
media-query registrations re-trigger it, and whatever the viewport width
is at those moments — performs exactly the effects computed from the
device variant fixed by the client width captured at script load; the
chosen variant, and hence the set of requested URLs, never changes. -/
theorem device_variant_fixed_at_load (env : PageEnv) (sections : List SectionEl)
    (triggerWidths : List ℚ) (r : List InitEffect)
    (hr : r ∈ pageInitRuns env sections triggerWidths) :
    r = sections.flatMap (initSectionEffects
        (if 768 ≤ env.loadClientWidth then "desktop" else "mobile")) := by
  rcases List.mem_map.mp hr with ⟨w, hw, he⟩
  exact he.symm

/-- Witness for C9: the script loads at width 1024 (desktop); a later
breakpoint handler fires at width 100 (mobile range), yet the run it
performs still requests the desktop URLs. -/
theorem device_variant_fixed_at_load_witness :
    ([InitEffect.bumpCounters 2,
      InitEffect.request "/img/desktop/001.jpg",
      InitEffect.request "/img/desktop/002.jpg"] ∈
        pageInitRuns ⟨1024⟩ [⟨some "/img/", some ".jpg", some 2, true⟩] [100]) ∧
    [InitEffect.bumpCounters 2,
      InitEffect.request "/img/desktop/001.jpg",
      InitEffect.request "/img/desktop/002.jpg"] =
      [(⟨some "/img/", some ".jpg", some 2, true⟩ : SectionEl)].flatMap
        (initSectionEffects
          (if 768 ≤ (⟨1024⟩ : PageEnv).loadClientWidth then "desktop" else "mobile")) := by
  have hval : initSectionsRun ⟨1024⟩ [⟨some "/img/", some ".jpg", some 2, true⟩] =
      [InitEffect.bumpCounters 2,
        InitEffect.request "/img/desktop/001.jpg",
        InitEffect.request "/img/desktop/002.jpg"] := by
    simp [initSectionsRun, initSectionEffects, sectionAccepted, jsFalsyStr, jsFalsyCount,
      deviceOf]
    norm_num
    decide
  have hmem : [InitEffect.bumpCounters 2,
      InitEffect.request "/img/desktop/001.jpg",
      InitEffect.request "/img/desktop/002.jpg"] ∈
        pageInitRuns ⟨1024⟩ [⟨some "/img/", some ".jpg", some 2, true⟩] [100] := by
    rw [← hval]
    simp [pageInitRuns]
  exact ⟨hmem,
    device_variant_fixed_at_load ⟨1024⟩ [⟨some "/img/", some ".jpg", some 2, true⟩]
      [100] _ hmem⟩

/-! ### C1 -/

/-- C1: for every section with URL parts `P`/`S`, device `D` and every frame
index `i < N`, the Frame Loader requests exactly the URL
`P ++ D ++ "/" ++ zero-pad (i+1) 3 ++ S`. -/
theorem frame_url_matches_spec (P D S : String) (N i : Nat) (hi : i < N) :
    currentFrame P D S i = P ++ D ++ "/" ++ zeroPad (i + 1) 3 ++ S := by
  have key : padStart (Nat.repr (i + 1)) 3 '0' = zeroPad (i + 1) 3 := by
    unfold padStart zeroPad
    split
    · next h =>
      have hz : 3 - (Nat.repr (i + 1)).length = 0 := Nat.sub_eq_zero_of_le h
      rw [hz]
      cases hrep : Nat.repr (i + 1)
      rfl
    · rfl
  unfold currentFrame
  rw [key]

/-- Witness for C1 at the spec's own examples: index 0 yields
`/img/desktop/001.jpg` and index 99 yields `/img/desktop/100.jpg`. -/
theorem frame_url_matches_spec_witness :
    (0 < 100 ∧ 99 < 100) ∧
    currentFrame "/img/" "desktop" ".jpg" 0 = "/img/desktop/001.jpg" ∧
    currentFrame "/img/" "desktop" ".jpg" 99 = "/img/desktop/100.jpg" :=
  ⟨by decide,
   (frame_url_matches_spec "/img/" "desktop" ".jpg" 100 0 (by decide)).trans (by decide),
   (frame_url_matches_spec "/img/" "desktop" ".jpg" 100 99 (by decide)).trans (by decide)⟩
